import Mathlib

/-!
Verification of the XSTOCK backend prediction pipeline.

The Python services under `src/src/services` are shallowly embedded:
Python floats are modelled as exact rationals (`ℚ`), nullable values as
`Option`, raised exceptions as `Except String`, and the external
ML/NumPy/SHAP library calls as explicit parameters or `Except`-valued
oracles whose outcomes are quantified over.
-/

namespace XStock

/-- Python's `round` to an integer: round-half-to-even (banker's rounding),
modelled exactly on `ℚ`. -/
def roundEven (x : ℚ) : ℤ :=
  if Int.fract x = 1/2 then (if Even ⌊x⌋ then ⌊x⌋ else ⌊x⌋ + 1) else round x

/-- Python's `round(x, 2)`. -/
def round2 (x : ℚ) : ℚ := (roundEven (x * 100) : ℚ) / 100

lemma roundEven_le_int {x : ℚ} {n : ℤ} (h : x ≤ n) : roundEven x ≤ n := by
  unfold roundEven
  split_ifs with h1 h2
  · exact (Int.floor_le_floor h).trans (le_of_eq (Int.floor_intCast n))
  · have hxn : x ≠ (n : ℚ) := by
      intro he
      rw [he, Int.fract_intCast] at h1
      norm_num at h1
    have hlt : x < (n : ℚ) := lt_of_le_of_ne h hxn
    have hfl : ⌊x⌋ < n := Int.floor_lt.mpr hlt
    omega
  · rw [round_eq]
    have hlt : x + 1/2 < (n : ℚ) + 1 := by linarith
    exact Int.floor_le_iff.mpr hlt

lemma roundEven_nonneg {x : ℚ} (h : 0 ≤ x) : 0 ≤ roundEven x := by
  unfold roundEven
  split_ifs with h1 h2
  · exact Int.floor_nonneg.mpr h
  · have := Int.floor_nonneg.mpr h; omega
  · rw [round_eq]
    exact Int.floor_nonneg.mpr (by linarith)

lemma round2_nonneg {x : ℚ} (h : 0 ≤ x) : 0 ≤ round2 x := by
  unfold round2
  have : (0:ℚ) ≤ (roundEven (x * 100) : ℚ) := by
    exact_mod_cast roundEven_nonneg (by positivity)
  positivity

lemma round2_le {x : ℚ} {n : ℤ} (h : x ≤ (n : ℚ) / 100) : round2 x ≤ (n : ℚ) / 100 := by
  unfold round2
  have hx : x * 100 ≤ (n : ℚ) := by linarith
  have := roundEven_le_int hx
  have : (roundEven (x * 100) : ℚ) ≤ (n : ℚ) := by exact_mod_cast this
  linarith

/-! Section: Ensemble voter (`PredictionService._ensemble_voting`) -/

/-- Valuation sub-score: `{"undervalued": 1, "fair": -1, "overvalued": -1}.get(val_pred, 0)`. -/
def valScore (val_pred : String) : ℤ :=
  if val_pred = "undervalued" then 1
  else if val_pred = "fair" then -1
  else if val_pred = "overvalued" then -1
  else 0

/-- Health sub-score: `{"excellent": 1, "fair": 0, "poor": -1}.get(health_pred, 0)`. -/
def healthScore (health_pred : String) : ℤ :=
  if health_pred = "excellent" then 1
  else if health_pred = "fair" then 0
  else if health_pred = "poor" then -1
  else 0

/-- Growth sub-score:
`{"strong_growth": 1, "moderate_growth": 1, "weak_growth": 0, "declining": -1}.get(growth_pred, 0)`. -/
def growthScore (growth_pred : String) : ℤ :=
  if growth_pred = "strong_growth" then 1
  else if growth_pred = "moderate_growth" then 1
  else if growth_pred = "weak_growth" then 0
  else if growth_pred = "declining" then 0 - 1
  else 0

/-- Result of `_ensemble_voting`: `{"recommendation": ..., "confidence": ...}`. -/
structure EnsembleResult where
  recommendation : String
  confidence : ℚ
deriving DecidableEq

/-- Source: `PredictionService._ensemble_voting`.  The recommendation and the
ensemble-agreement confidence are assigned under the same `total_score`
conditions as the source's single `if/elif/else`. -/
def ensembleVoting (val_pred health_pred growth_pred : String)
    (val_conf health_conf growth_conf : ℚ) : EnsembleResult :=
  let val_score := valScore val_pred
  let health_score := healthScore health_pred
  let growth_score := growthScore growth_pred
  let total_score := val_score + health_score + growth_score
  let recommendation :=
    if 2 ≤ total_score then "BUY"
    else if total_score ≤ -2 then "SELL"
    else "HOLD"
  let ensemble_confidence :=
    if 2 ≤ total_score then 85/100 + ((total_score : ℚ) - 2) * (5/100)
    else if total_score ≤ -2 then 85/100 + |(total_score : ℚ) + 2| * (5/100)
    else 75/100 + |(total_score : ℚ)| * (5/100)
  let ensemble_confidence := min ensemble_confidence (95/100)
  let avg_model_confidence := (val_conf + health_conf + growth_conf) / 3
  let final_confidence := (ensemble_confidence + avg_model_confidence) / 2
  { recommendation := recommendation, confidence := round2 final_confidence }

lemma ensembleVoting_recommendation (v h g : String) (cv ch cg : ℚ) :
    (ensembleVoting v h g cv ch cg).recommendation =
      (if 2 ≤ valScore v + healthScore h + growthScore g then "BUY"
       else if valScore v + healthScore h + growthScore g ≤ -2 then "SELL"
       else "HOLD") := rfl

lemma ensembleVoting_confidence (v h g : String) (cv ch cg : ℚ) :
    (ensembleVoting v h g cv ch cg).confidence =
      round2 ((min
        (if 2 ≤ valScore v + healthScore h + growthScore g then
          85/100 + (((valScore v + healthScore h + growthScore g : ℤ) : ℚ) - 2) * (5/100)
         else if valScore v + healthScore h + growthScore g ≤ -2 then
          85/100 + |((valScore v + healthScore h + growthScore g : ℤ) : ℚ) + 2| * (5/100)
         else 75/100 + |((valScore v + healthScore h + growthScore g : ℤ) : ℚ)| * (5/100))
        (95/100) + (cv + ch + cg) / 3) / 2) := rfl

lemma valScore_cases (v : String) : valScore v = 1 ∨ valScore v = -1 ∨ valScore v = 0 := by
  unfold valScore; split_ifs <;> simp

lemma healthScore_cases (h : String) :
    healthScore h = 1 ∨ healthScore h = -1 ∨ healthScore h = 0 := by
  unfold healthScore; split_ifs <;> simp

lemma growthScore_cases (g : String) :
    growthScore g = 1 ∨ growthScore g = -1 ∨ growthScore g = 0 := by
  unfold growthScore; split_ifs <;> simp

lemma roundEven_intCast (n : ℤ) : roundEven (n : ℚ) = n := by
  unfold roundEven
  rw [Int.fract_intCast]
  norm_num [round_intCast]

lemma round2_div_100 (n : ℤ) : round2 ((n : ℚ) / 100) = (n : ℚ) / 100 := by
  unfold round2
  have h : ((n : ℚ) / 100) * 100 = (n : ℚ) := by field_simp
  rw [h, roundEven_intCast]

/-- The class label lists declared by `ModelLoader.load_models` for the three
models (`'classes'` entries in `model_loader.py`). -/
def model1Classes : List String := ["UNDERVALUED", "FAIR", "OVERVALUED"]

def model2Classes : List String := ["EXCELLENT", "FAIR", "POOR"]

def model3Classes : List String := ["STRONG_GROWTH", "MODERATE_GROWTH", "WEAK_GROWTH", "DECLINING"]

/-- C1: the ensemble scoring is NOT case-insensitive.  Every upper-case class
label declared by the model registry scores `0` (the unrecognized default),
while the canonical lowercase keys score per the rubric; consequently the
registry's own label triple ("UNDERVALUED","EXCELLENT","STRONG_GROWTH") yields
"HOLD" where the lowercase triple yields "BUY".  This contradicts the claim
that the score of each label is unchanged under a change of letter case. -/
theorem ensemble_scoring_case_sensitive :
    (model1Classes.all fun v => valScore v == 0) = true ∧
    (model2Classes.all fun h => healthScore h == 0) = true ∧
    (model3Classes.all fun g => growthScore g == 0) = true ∧
    valScore "undervalued" = 1 ∧ healthScore "excellent" = 1 ∧
    growthScore "strong_growth" = 1 ∧
    (ensembleVoting "UNDERVALUED" "EXCELLENT" "STRONG_GROWTH" (8/10) (9/10) (7/10)).recommendation
      = "HOLD" ∧
    (ensembleVoting "undervalued" "excellent" "strong_growth" (8/10) (9/10) (7/10)).recommendation
      = "BUY" := by
  refine ⟨by decide, by decide, by decide, by decide, by decide, by decide, by decide, by decide⟩

/-- C2: for every label triple (in particular all combinations of the canonical
keys) the voter's total is the exact integer sum of the three sub-scores, whose
tables are as claimed; the recommendation is "BUY" exactly when the total is 2
or 3, "SELL" exactly when it is -3 or -2, and "HOLD" otherwise. -/
theorem ensemble_total_sum_and_thresholds (v h g : String) (cv ch cg : ℚ) :
    (valScore "undervalued" = 1 ∧ valScore "fair" = -1 ∧ valScore "overvalued" = -1 ∧
     healthScore "excellent" = 1 ∧ healthScore "fair" = 0 ∧ healthScore "poor" = -1 ∧
     growthScore "strong_growth" = 1 ∧ growthScore "moderate_growth" = 1 ∧
     growthScore "weak_growth" = 0 ∧ growthScore "declining" = -1) ∧
    (-3 ≤ valScore v + healthScore h + growthScore g
      ∧ valScore v + healthScore h + growthScore g ≤ 3) ∧
    ((ensembleVoting v h g cv ch cg).recommendation = "BUY"
      ↔ valScore v + healthScore h + growthScore g = 2
        ∨ valScore v + healthScore h + growthScore g = 3) ∧
    ((ensembleVoting v h g cv ch cg).recommendation = "SELL"
      ↔ valScore v + healthScore h + growthScore g = -3
        ∨ valScore v + healthScore h + growthScore g = -2) ∧
    ((ensembleVoting v h g cv ch cg).recommendation = "HOLD"
      ↔ -1 ≤ valScore v + healthScore h + growthScore g
        ∧ valScore v + healthScore h + growthScore g ≤ 1) := by
  have hv := valScore_cases v
  have hh := healthScore_cases h
  have hg := growthScore_cases g
  have hb : -3 ≤ valScore v + healthScore h + growthScore g
      ∧ valScore v + healthScore h + growthScore g ≤ 3 := by
    rcases hv with hv|hv|hv <;> rcases hh with hh|hh|hh <;> rcases hg with hg|hg|hg <;> omega
  refine ⟨by decide, hb, ?_, ?_, ?_⟩ <;>
    rw [ensembleVoting_recommendation] <;>
    split_ifs with h1 h2 <;> simp_all <;> omega

/-- C3: for per-model confidences in [0,1] and any label triple, the final
ensemble confidence (agreement confidence averaged with the mean model
confidence, rounded to 2 decimals) lies in [0, 0.95]. -/
theorem ensemble_confidence_in_range (v h g : String) (cv ch cg : ℚ)
    (h1 : 0 ≤ cv) (h2 : cv ≤ 1) (h3 : 0 ≤ ch) (h4 : ch ≤ 1)
    (h5 : 0 ≤ cg) (h6 : cg ≤ 1) :
    0 ≤ (ensembleVoting v h g cv ch cg).confidence ∧
      (ensembleVoting v h g cv ch cg).confidence ≤ 95/100 := by
  rw [ensembleVoting_confidence]
  have hv := valScore_cases v
  have hh := healthScore_cases h
  have hg := growthScore_cases g
  have hb : -3 ≤ valScore v + healthScore h + growthScore g
      ∧ valScore v + healthScore h + growthScore g ≤ 3 := by
    rcases hv with hv|hv|hv <;> rcases hh with hh|hh|hh <;> rcases hg with hg|hg|hg <;> omega
  set t : ℤ := valScore v + healthScore h + growthScore g with ht
  have he : 75/100 ≤ (if 2 ≤ t then 85/100 + ((t : ℚ) - 2) * (5/100)
      else if t ≤ -2 then 85/100 + |(t : ℚ) + 2| * (5/100)
      else 75/100 + |(t : ℚ)| * (5/100))
      ∧ (if 2 ≤ t then 85/100 + ((t : ℚ) - 2) * (5/100)
      else if t ≤ -2 then 85/100 + |(t : ℚ) + 2| * (5/100)
      else 75/100 + |(t : ℚ)| * (5/100)) ≤ 9/10 := by
    split_ifs with hb1 hb2
    · have hl : (2 : ℚ) ≤ (t : ℚ) := by exact_mod_cast hb1
      have hu : (t : ℚ) ≤ 3 := by exact_mod_cast hb.2
      constructor <;> nlinarith
    · have hl : (-3 : ℚ) ≤ (t : ℚ) := by exact_mod_cast hb.1
      have hu : (t : ℚ) ≤ -2 := by exact_mod_cast hb2
      have habs : |(t : ℚ) + 2| ≤ 1 := abs_le.mpr ⟨by linarith, by linarith⟩
      have habs0 : 0 ≤ |(t : ℚ) + 2| := abs_nonneg _
      constructor <;> nlinarith
    · have hl : (-1 : ℚ) ≤ (t : ℚ) := by
        have : -1 ≤ t := by omega
        exact_mod_cast this
      have hu : (t : ℚ) ≤ 1 := by
        have : t ≤ 1 := by omega
        exact_mod_cast this
      have habs : |(t : ℚ)| ≤ 1 := abs_le.mpr ⟨by linarith, by linarith⟩
      have habs0 : 0 ≤ |(t : ℚ)| := abs_nonneg _
      constructor <;> nlinarith
  set e : ℚ := (if 2 ≤ t then 85/100 + ((t : ℚ) - 2) * (5/100)
      else if t ≤ -2 then 85/100 + |(t : ℚ) + 2| * (5/100)
      else 75/100 + |(t : ℚ)| * (5/100)) with hedef
  have hmin0 : (0:ℚ) ≤ min e (95/100) := le_min (by linarith [he.1]) (by norm_num)
  have hmin1 : min e (95/100) ≤ 9/10 := le_trans (min_le_left _ _) he.2
  have havg : 0 ≤ (cv + ch + cg) / 3 ∧ (cv + ch + cg) / 3 ≤ 1 :=
    ⟨by linarith, by linarith⟩
  constructor
  · exact round2_nonneg (by linarith [havg.1])
  · have hfin : (min e (95/100) + (cv + ch + cg) / 3) / 2 ≤ ((95 : ℤ) : ℚ) / 100 := by
      push_cast
      linarith [havg.2]
    have := round2_le hfin
    push_cast at this
    exact this

/-- Witness for C3 at the spec's end-to-end scenario:
labels (undervalued, excellent, strong_growth), confidences (0.8, 0.9, 0.7). -/
theorem ensemble_confidence_in_range_witness :
    ((0:ℚ) ≤ 8/10 ∧ (8:ℚ)/10 ≤ 1 ∧ (0:ℚ) ≤ 9/10 ∧ (9:ℚ)/10 ≤ 1
      ∧ (0:ℚ) ≤ 7/10 ∧ (7:ℚ)/10 ≤ 1) ∧
    (0 ≤ (ensembleVoting "undervalued" "excellent" "strong_growth"
        (8/10) (9/10) (7/10)).confidence ∧
      (ensembleVoting "undervalued" "excellent" "strong_growth"
        (8/10) (9/10) (7/10)).confidence ≤ 95/100) :=
  ⟨⟨by norm_num, by norm_num, by norm_num, by norm_num, by norm_num, by norm_num⟩,
   ensemble_confidence_in_range "undervalued" "excellent" "strong_growth"
     (8/10) (9/10) (7/10) (by norm_num) (by norm_num) (by norm_num)
     (by norm_num) (by norm_num) (by norm_num)⟩

/-! Section: Stock record (`models/stock.py`) — nullable columns as `Option ℚ` -/

structure Stock where
  id : ℕ := 0
  ticker : String := ""
  company_name : String := ""
  sector : Option String := none
  pe_ratio : Option ℚ := none
  pb_ratio : Option ℚ := none
  roe : Option ℚ := none
  profit_margin : Option ℚ := none
  debt_equity : Option ℚ := none
  revenue_per_share_2023 : Option ℚ := none
  ebitda_per_share_2023 : Option ℚ := none
  book_value_per_share_2023 : Option ℚ := none
  debt_per_share_2023 : Option ℚ := none
  cash_per_share_2023 : Option ℚ := none
  working_capital_per_share_2023 : Option ℚ := none
  capex_per_share_2023 : Option ℚ := none
  revenue_per_share_2024 : Option ℚ := none
  ebitda_per_share_2024 : Option ℚ := none
  book_value_per_share_2024 : Option ℚ := none
  debt_per_share_2024 : Option ℚ := none
  cash_per_share_2024 : Option ℚ := none
  working_capital_per_share_2024 : Option ℚ := none
  capex_per_share_2024 : Option ℚ := none
  revenue_per_share_2025 : Option ℚ := none
  ebitda_per_share_2025 : Option ℚ := none
  book_value_per_share_2025 : Option ℚ := none
  debt_per_share_2025 : Option ℚ := none
  cash_per_share_2025 : Option ℚ := none
  working_capital_per_share_2025 : Option ℚ := none
  capex_per_share_2025 : Option ℚ := none
deriving DecidableEq

/-! Section: Ratio calculator (`StockService._calculate_and_store_ratios`)

`math.sqrt` and `pow` act on positive reals; they are modelled as explicit
function parameters (`sqrtQ`, `rpowQ`) since neither is rational-valued in
general.  No claim below depends on their values. -/

/-- Source: `safe_growth(new_val, old_val, default=0.0)`: returns the default when an
input is missing or the denominator year is zero, else `(new-old)/old`. -/
def safe_growth (new_val old_val : Option ℚ) (default : Option ℚ := some 0) : Option ℚ :=
  match new_val, old_val with
  | some n, some o => if o = 0 then default else some ((n - o) / o)
  | _, _ => default

/-- Source: `safe_cagr(end_val, start_val, periods=2, default=0.0)`. -/
def safe_cagr (rpowQ : ℚ → ℚ → ℚ) (end_val start_val : Option ℚ) (periods : ℚ := 2)
    (default : Option ℚ := some 0) : Option ℚ :=
  match end_val, start_val with
  | some e, some s =>
      if s ≤ 0 ∨ e ≤ 0 then default else some (rpowQ (e / s) (1 / periods) - 1)
  | _, _ => default

/-- Source: `safe_calc(numerator, denominator, default=None)`. -/
def safe_calc (numerator denominator : Option ℚ) (default : Option ℚ := none) : Option ℚ :=
  match numerator, denominator with
  | some n, some d => if d = 0 then default else some (n / d)
  | _, _ => default

/-- The `if g1 is not None and g2 is not None` volatility block: population
standard deviation of the two year-over-year growth rates, `None` otherwise. -/
def volatilityOf (sqrtQ : ℚ → ℚ) (g1? g2? : Option ℚ) : Option ℚ :=
  match g1?, g2? with
  | some g1, some g2 =>
      let mean_growth := (g1 + g2) / 2
      let variance := ((g1 - mean_growth) ^ 2 + (g2 - mean_growth) ^ 2) / 2
      some (if 0 ≤ variance then sqrtQ variance else 0)
  | _, _ => none

/-- The acceleration block: second growth rate minus first, `None` if either
input is `None`. -/
def accelerationOf (g1? g2? : Option ℚ) : Option ℚ :=
  match g1?, g2? with
  | some g1, some g2 => some (g2 - g1)
  | _, _ => none

/-- The derived-ratio record built by `_calculate_and_store_ratios` (the
`ratios` dict; the final repository upsert is external persistence). -/
structure StockRatios where
  revenue_growth_1y : Option ℚ := none
  ebitda_growth_1y : Option ℚ := none
  equity_growth : Option ℚ := none
  debt_trend : Option ℚ := none
  cash_trend : Option ℚ := none
  working_capital_trend : Option ℚ := none
  leverage_change : Option ℚ := none
  debt_to_equity_2025 : Option ℚ := none
  revenue_cagr_2y : Option ℚ := none
  ebitda_cagr_2y : Option ℚ := none
  book_value_cagr_2y : Option ℚ := none
  revenue_volatility : Option ℚ := none
  ebitda_volatility : Option ℚ := none
  revenue_acceleration : Option ℚ := none
  ebitda_acceleration : Option ℚ := none
  capex_trend : Option ℚ := none
  working_capital_trend_2y : Option ℚ := none
  ticker : String := ""
deriving DecidableEq

/-- Source: `StockService._calculate_and_store_ratios`, up to (but not including) the
repository upsert. -/
def calculateRatios (sqrtQ : ℚ → ℚ) (rpowQ : ℚ → ℚ → ℚ) (stock : Stock) : StockRatios :=
  let debt_equity_2024 := safe_calc stock.debt_per_share_2024 stock.book_value_per_share_2024
  let debt_equity_2025 := safe_calc stock.debt_per_share_2025 stock.book_value_per_share_2025
  let leverage_change :=
    match debt_equity_2024, debt_equity_2025 with
    | some de24, some de25 => some (de25 - de24)
    | _, _ => none
  let growth_2023_2024 := safe_growth stock.revenue_per_share_2024 stock.revenue_per_share_2023
  let growth_2024_2025 := safe_growth stock.revenue_per_share_2025 stock.revenue_per_share_2024
  let ebitda_growth_2023_2024 := safe_growth stock.ebitda_per_share_2024 stock.ebitda_per_share_2023
  let ebitda_growth_2024_2025 := safe_growth stock.ebitda_per_share_2025 stock.ebitda_per_share_2024
  { revenue_growth_1y := safe_growth stock.revenue_per_share_2025 stock.revenue_per_share_2024
    ebitda_growth_1y := safe_growth stock.ebitda_per_share_2025 stock.ebitda_per_share_2024
    equity_growth := safe_growth stock.book_value_per_share_2025 stock.book_value_per_share_2024
    debt_trend := safe_growth stock.debt_per_share_2025 stock.debt_per_share_2024
    cash_trend := safe_growth stock.cash_per_share_2025 stock.cash_per_share_2024
    working_capital_trend :=
      safe_growth stock.working_capital_per_share_2025 stock.working_capital_per_share_2024
    leverage_change := leverage_change
    debt_to_equity_2025 := debt_equity_2025
    revenue_cagr_2y := safe_cagr rpowQ stock.revenue_per_share_2025 stock.revenue_per_share_2023 2
    ebitda_cagr_2y := safe_cagr rpowQ stock.ebitda_per_share_2025 stock.ebitda_per_share_2023 2
    book_value_cagr_2y :=
      safe_cagr rpowQ stock.book_value_per_share_2025 stock.book_value_per_share_2023 2
    revenue_volatility := volatilityOf sqrtQ growth_2023_2024 growth_2024_2025
    ebitda_volatility := volatilityOf sqrtQ ebitda_growth_2023_2024 ebitda_growth_2024_2025
    revenue_acceleration := accelerationOf growth_2023_2024 growth_2024_2025
    ebitda_acceleration := accelerationOf ebitda_growth_2023_2024 ebitda_growth_2024_2025
    capex_trend := safe_growth stock.capex_per_share_2025 stock.capex_per_share_2024
    working_capital_trend_2y :=
      safe_cagr rpowQ stock.working_capital_per_share_2025 stock.working_capital_per_share_2023 2
    ticker := stock.ticker }

lemma safe_growth_isSome (a b : Option ℚ) : (safe_growth a b).isSome = true := by
  cases a <;> cases b
  case some.some n o =>
    simp only [safe_growth]
    split_ifs <;> simp
  all_goals simp [safe_growth]

/-- A stock whose 2023 revenue and EBITDA per-share values are missing, making
the first year-over-year growth rate undefined in the claim's sense. -/
def stockMissing2023 : Stock :=
  { ticker := "ABC"
    revenue_per_share_2024 := some 2, revenue_per_share_2025 := some 3
    ebitda_per_share_2024 := some 2, ebitda_per_share_2025 := some 3 }

/-- C4 counterexample: with the 2023 per-share values missing, the first growth
input is defaulted to 0.0 by `safe_growth` (not left undefined), so the stored
acceleration is `0.5 - 0.0 = 0.5` and the volatility is also non-null — the
claim's "stored as null" fails.  The `sqrtQ`/`rpowQ` arguments model the
external `math.sqrt`/`pow` calls; nullity does not depend on them (see the
amended theorem). -/
theorem ratio_metrics_null_counterexample :
    (calculateRatios (fun q => q) (fun b _ => b) stockMissing2023).revenue_acceleration
      = some (1/2) ∧
    (calculateRatios (fun q => q) (fun b _ => b) stockMissing2023).revenue_acceleration
      ≠ none ∧
    (calculateRatios (fun q => q) (fun b _ => b) stockMissing2023).revenue_volatility
      ≠ none ∧
    (calculateRatios (fun q => q) (fun b _ => b) stockMissing2023).ebitda_acceleration
      ≠ none ∧
    (calculateRatios (fun q => q) (fun b _ => b) stockMissing2023).ebitda_volatility
      ≠ none := by
  refine ⟨?_, by decide, by decide, by decide, by decide⟩
  show accelerationOf (safe_growth (some 2) none) (safe_growth (some 3) (some 2)) = some (1/2)
  norm_num [safe_growth, accelerationOf]

/-- C4 amended: the two consecutive year-over-year growth rates are themselves
defaulted to 0.0 by `safe_growth` whenever an input is missing or the
denominator year is zero, so the volatility and acceleration metrics are
always stored as computed (non-null) values — never null — symmetric with the
1-year growth metrics' 0.0 default. -/
theorem ratio_volatility_acceleration_never_null
    (sqrtQ : ℚ → ℚ) (rpowQ : ℚ → ℚ → ℚ) (s : Stock) :
    ((calculateRatios sqrtQ rpowQ s).revenue_volatility).isSome = true ∧
    ((calculateRatios sqrtQ rpowQ s).ebitda_volatility).isSome = true ∧
    ((calculateRatios sqrtQ rpowQ s).revenue_acceleration).isSome = true ∧
    ((calculateRatios sqrtQ rpowQ s).ebitda_acceleration).isSome = true ∧
    (∀ x : Option ℚ, safe_growth none x = some 0 ∧ safe_growth x none = some 0) ∧
    (calculateRatios sqrtQ rpowQ s).revenue_growth_1y
      = safe_growth s.revenue_per_share_2025 s.revenue_per_share_2024 := by
  have h1 := safe_growth_isSome s.revenue_per_share_2024 s.revenue_per_share_2023
  have h2 := safe_growth_isSome s.revenue_per_share_2025 s.revenue_per_share_2024
  have h3 := safe_growth_isSome s.ebitda_per_share_2024 s.ebitda_per_share_2023
  have h4 := safe_growth_isSome s.ebitda_per_share_2025 s.ebitda_per_share_2024
  obtain ⟨g1, hg1⟩ := Option.isSome_iff_exists.mp h1
  obtain ⟨g2, hg2⟩ := Option.isSome_iff_exists.mp h2
  obtain ⟨g3, hg3⟩ := Option.isSome_iff_exists.mp h3
  obtain ⟨g4, hg4⟩ := Option.isSome_iff_exists.mp h4
  refine ⟨?_, ?_, ?_, ?_, ?_, rfl⟩
  · show (volatilityOf sqrtQ (safe_growth s.revenue_per_share_2024 s.revenue_per_share_2023)
      (safe_growth s.revenue_per_share_2025 s.revenue_per_share_2024)).isSome = true
    rw [hg1, hg2]; rfl
  · show (volatilityOf sqrtQ (safe_growth s.ebitda_per_share_2024 s.ebitda_per_share_2023)
      (safe_growth s.ebitda_per_share_2025 s.ebitda_per_share_2024)).isSome = true
    rw [hg3, hg4]; rfl
  · show (accelerationOf (safe_growth s.revenue_per_share_2024 s.revenue_per_share_2023)
      (safe_growth s.revenue_per_share_2025 s.revenue_per_share_2024)).isSome = true
    rw [hg1, hg2]; rfl
  · show (accelerationOf (safe_growth s.ebitda_per_share_2024 s.ebitda_per_share_2023)
      (safe_growth s.ebitda_per_share_2025 s.ebitda_per_share_2024)).isSome = true
    rw [hg3, hg4]; rfl
  · intro x
    cases x <;> constructor <;> simp [safe_growth]

/-! Section: Explanation service (`explanation_service.py`)

External library calls (XGBoost importances, SHAP explainers, NumPy slicing,
`model.predict`) are modelled as `Except`-valued oracles quantified over;
Python exceptions inside a `try` body are the `Except` monad's errors and each
`except` handler is the outer `match`. -/

/-- A `{'name': ..., 'value': ..., 'impact': ...}` attribution entry. -/
structure FeatureAttr where
  name : String
  value : ℚ
  impact : ℚ
deriving DecidableEq

/-- Stable ascending sort of indices by value — models `np.argsort`. -/
def argsortAsc (vals : List ℚ) : List ℕ :=
  List.insertionSort (fun i j => vals.getD i 0 ≤ vals.getD j 0) (List.range vals.length)

/-- Source: `np.argsort(vals)[-3:][::-1]`: indices of the (up to) three largest
entries, largest first. -/
def top3Indices (vals : List ℚ) : List ℕ :=
  ((argsortAsc vals).drop (vals.length - 3)).reverse

/-- Python sequence indexing (`xs[i]`), raising `IndexError` out of range. -/
def listGet {α : Type} (l : List α) (i : ℕ) : Except String α :=
  match l.get? i with
  | some x => .ok x
  | none => .error "IndexError"

/-- Source: `list(names).index(x)`, raising `ValueError` when absent. -/
def listIndexOf (l : List String) (x : String) : Except String ℕ :=
  match l.findIdx? (· == x) with
  | some i => .ok i
  | none => .error "ValueError"

/-- Python attribute access (`model.feature_importances_`, `model.coef_`),
raising `AttributeError` when the estimator lacks the attribute. -/
def attrOf {α : Type} (o : Option α) : Except String α :=
  match o with
  | some v => .ok v
  | none => .error "AttributeError"

/-- Source: `ExplanationService.FEATURE_NAMES`. -/
def FEATURE_NAMES : List (String × String) :=
  [("pe_ratio", "PE Ratio"), ("pb_ratio", "PB Ratio"), ("roe", "Return on Equity (ROE)"),
   ("profit_margin", "Profit Margin"), ("debt_equity", "Debt to Equity"),
   ("revenue_growth_1y", "1-Year Revenue Growth"), ("ebitda_growth_1y", "1-Year EBITDA Growth"),
   ("equity_growth", "Equity Growth"), ("debt_trend", "Debt Trend"), ("cash_trend", "Cash Trend"),
   ("working_capital_trend", "Working Capital Trend"), ("leverage_change", "Leverage Change"),
   ("debt_to_equity_2025", "Current Debt/Equity Ratio"),
   ("revenue_cagr_2y", "2-Year Revenue CAGR"), ("ebitda_cagr_2y", "2-Year EBITDA CAGR"),
   ("book_value_cagr_2y", "2-Year Book Value CAGR"), ("revenue_volatility", "Revenue Volatility"),
   ("ebitda_volatility", "EBITDA Volatility"), ("revenue_acceleration", "Revenue Acceleration"),
   ("ebitda_acceleration", "EBITDA Acceleration"), ("capex_trend", "CapEx Trend"),
   ("working_capital_trend_2y", "2-Year Working Capital Trend")]

/-- Source: `pat in s` for strings (Python substring containment). -/
def containsSubAux (pat : List Char) : List Char → Bool
  | [] => pat.isEmpty
  | c :: cs => pat.isPrefixOf (c :: cs) || containsSubAux pat cs

def strContains (s pat : String) : Bool := containsSubAux pat.data s.data

/-- Source: `name.replace('_', ' ')` specialised to the single-character pattern the
source uses. -/
def replaceUnderscores (s : String) : String :=
  String.mk (s.data.map fun c => if c = '_' then ' ' else c)

/-- Python `str.title()` on an underscore-free word list. -/
def pyTitle (s : String) : String :=
  String.intercalate " " ((s.splitOn " ").map fun w =>
    match w.data with
    | [] => ""
    | c :: cs => String.mk (c.toUpper :: cs.map Char.toLower))

/-- Source: `FEATURE_NAMES.get(name, name.replace('_', ' ').title())`. -/
def readableName (name : String) : String :=
  match FEATURE_NAMES.lookup name with
  | some r => r
  | none => pyTitle (replaceUnderscores name)

def toLowerStr (s : String) : String := String.mk (s.data.map Char.toLower)

/-- Zero-pad a digit string on the left to `d` characters. -/
def padZeros (s : String) (d : ℕ) : String :=
  String.mk (List.replicate (d - s.length) '0') ++ s

/-- Python's fixed-point float formatting `f"{q:.df}"`, on the exact rational
model (round-half-to-even at the `d`-th decimal). -/
def formatFixed (q : ℚ) (d : ℕ) : String :=
  let scaled := roundEven (q * ((10 : ℚ) ^ d))
  let n := scaled.natAbs
  let ip := n / 10 ^ d
  let fp := n % 10 ^ d
  (if scaled < 0 then "-" else "") ++ toString ip
    ++ (if d = 0 then "" else "." ++ padZeros (toString fp) d)

/-- The shared value-formatting branch: ratio-like → 2 decimals;
growth/trend/CAGR-like → one decimal with a percent sign; else one decimal. -/
def valueStrFor (name : String) (value : ℚ) : String :=
  if strContains (toLowerStr name) "ratio" || strContains (toLowerStr name) "equity" then
    formatFixed value 2
  else if strContains (toLowerStr name) "growth" || strContains (toLowerStr name) "trend"
      || strContains (toLowerStr name) "cagr" then
    formatFixed value 1 ++ "%"
  else
    formatFixed value 1

/-- Source: `_format_feature_importance_explanation` (its `feature_values` /
`feature_names` parameters are unused in the source body). -/
def formatFeatureImportanceExplanation (top_features : List FeatureAttr) : String :=
  if top_features.isEmpty then "Prediction based on multiple factors."
  else
    String.intercalate ". " (top_features.map fun f =>
      readableName f.name ++ " (" ++ valueStrFor f.name f.value ++ ") is a key factor with "
        ++ formatFixed (f.impact * 100) 1 ++ "% importance") ++ "."

/-- One loop iteration of `_format_shap_explanation`: the `.index` lookup and
`shap_values` indexing can raise, hence the `Except`. -/
def shapSentence (shap_values : List ℚ) (feature_names : List String) (f : FeatureAttr) :
    Except String String := do
  let feature_idx ← listIndexOf feature_names f.name
  let shap_value ← listGet shap_values feature_idx
  let direction := if 0 < shap_value then "positively" else "negatively"
  pure (readableName f.name ++ " (" ++ valueStrFor f.name f.value ++ ") contributes "
    ++ direction ++ " with impact of " ++ formatFixed |shap_value| 3)

/-- Source: `_format_shap_explanation`. -/
def formatShapExplanation (top_features : List FeatureAttr) (shap_values : List ℚ)
    (feature_names : List String) : Except String String :=
  if top_features.isEmpty then .ok "Prediction based on multiple factors."
  else do
    let parts ← top_features.mapM (shapSentence shap_values feature_names)
    pure (String.intercalate ". " parts ++ ".")

/-- Source: `_format_coefficient_explanation`. -/
def formatCoefficientExplanation (top_features : List FeatureAttr) : String :=
  if top_features.isEmpty then "Prediction based on multiple growth factors."
  else
    String.intercalate ". " (top_features.map fun f =>
      readableName f.name ++ " (" ++ valueStrFor f.name f.value
        ++ ") is a significant factor with impact score of " ++ formatFixed f.impact 3) ++ "."

/-- The aspects of a fitted estimator the explanation service touches.
`predictOutcome` models a `model.predict(features_transformed)` call. -/
structure MLModel where
  feature_importances : Option (List ℚ) := none
  coef : Option (List ℚ) := none
  has_predict_proba : Bool := false
  predictOutcome : Except String ℕ := .error "NotFittedError"

/-- The `for idx in top_indices` loop shared by all four explanation paths:
builds `{'name': feature_names[idx], 'value': feature_values[idx],
'impact': impacts[idx]}` entries, any indexing error propagating. -/
def buildTopFeatures (feature_names : List String) (feature_values : List ℚ)
    (impacts : List ℚ) (top_indices : List ℕ) : Except String (List FeatureAttr) :=
  top_indices.mapM fun idx => do
    let name ← listGet feature_names idx
    let value ← listGet feature_values idx
    let impact ← listGet impacts idx
    pure { name := name, value := value, impact := impact : FeatureAttr }

/-- The `try` body of `explain_with_feature_importance`. -/
def explainFeatureImportanceTry (model : MLModel) (feature_names : List String)
    (feature_values : List ℚ) : Except String (List FeatureAttr × String) := do
  let importances ← attrOf model.feature_importances
  let top_features ← buildTopFeatures feature_names feature_values importances
    (top3Indices importances)
  pure (top_features, formatFeatureImportanceExplanation top_features)

/-- Source: `explain_with_feature_importance`: any exception falls back to the empty
attribution list with a fixed reason. -/
def explainWithFeatureImportance (model : MLModel) (feature_names : List String)
    (feature_values : List ℚ) : List FeatureAttr × String :=
  match explainFeatureImportanceTry model feature_names feature_values with
  | .ok r => r
  | .error _ => ([], "Unable to generate explanation.")

/-- The `try` body of `explain_with_shap_tree`.  `shapForPrediction` models
`shap.TreeExplainer(...).shap_values(...)` plus the predicted-class slice. -/
def explainShapTreeTry (shapForPrediction : Except String (List ℚ))
    (feature_names : List String) (feature_values : List ℚ) :
    Except String (List FeatureAttr × String) := do
  let shap_values_for_prediction ← shapForPrediction
  let abs_shap := shap_values_for_prediction.map fun x => |x|
  let top_features ← buildTopFeatures feature_names feature_values abs_shap
    (top3Indices abs_shap)
  let explanation ← formatShapExplanation top_features shap_values_for_prediction feature_names
  pure (top_features, explanation)

/-- Source: `explain_with_shap_tree`: any exception falls back to
`explain_with_feature_importance`. -/
def explainWithShapTree (shapForPrediction : Except String (List ℚ)) (model : MLModel)
    (feature_names : List String) (feature_values : List ℚ) : List FeatureAttr × String :=
  match explainShapTreeTry shapForPrediction feature_names feature_values with
  | .ok r => r
  | .error _ => explainWithFeatureImportance model feature_names feature_values

/-- NumPy elementwise `coefficients * features_transformed[0]`, raising on a
shape mismatch. -/
def elementwiseMul (a b : List ℚ) : Except String (List ℚ) :=
  if a.length = b.length then .ok (List.zipWith (· * ·) a b) else .error "ValueError"

/-- The `try` body of `_explain_svm_with_coefficients`: coefficient-based
attribution when `coef_` exists, else raw absolute-feature-value ranking. -/
def explainSvmCoefficientsTry (model : MLModel) (features_transformed : List ℚ)
    (feature_names : List String) (feature_values : List ℚ) :
    Except String (List FeatureAttr × String) := do
  match model.coef with
  | some coefficients => do
      let products ← elementwiseMul coefficients features_transformed
      let impacts := products.map fun p => |p|
      let top_features ← buildTopFeatures feature_names feature_values impacts
        (top3Indices impacts)
      pure (top_features, formatCoefficientExplanation top_features)
  | none => do
      let abs_features := features_transformed.map fun x => |x|
      let top_features ← buildTopFeatures feature_names feature_values abs_features
        (top3Indices abs_features)
      let explanation := "Prediction based on key growth metrics. "
        ++ String.intercalate ", " ((top_features.take 3).map fun f =>
            replaceUnderscores f.name)
      pure (top_features, explanation)

/-- Source: `_explain_svm_with_coefficients`: any exception falls back to the empty
attribution list with a fixed reason. -/
def explainSvmWithCoefficients (model : MLModel) (features_transformed : List ℚ)
    (feature_names : List String) (feature_values : List ℚ) : List FeatureAttr × String :=
  match explainSvmCoefficientsTry model features_transformed feature_names feature_values with
  | .ok r => r
  | .error _ => ([], "Unable to generate detailed explanation.")

/-- The `try` body of `explain_with_shap_kernel`.  The background-data
subsampling, `KernelExplainer` construction, the 50-sample SHAP evaluation and
the predicted-class slice are external and absorbed into `shapForPrediction`. -/
def explainShapKernelTry (shapForPrediction : Except String (List ℚ)) (model : MLModel)
    (feature_names : List String) (feature_values : List ℚ) :
    Except String (List FeatureAttr × String) :=
  if model.has_predict_proba = false then
    .error "Model doesn't support probability predictions"
  else do
  let _ ← model.predictOutcome
  let shap_values_for_prediction ← shapForPrediction
  let abs_shap := shap_values_for_prediction.map fun x => |x|
  let top_features ← buildTopFeatures feature_names feature_values abs_shap
    (top3Indices abs_shap)
  let explanation ← formatShapExplanation top_features shap_values_for_prediction feature_names
  pure (top_features, explanation)

/-- Source: `explain_with_shap_kernel`: any exception falls back to
`_explain_svm_with_coefficients`. -/
def explainWithShapKernel (shapForPrediction : Except String (List ℚ)) (model : MLModel)
    (features_transformed : List ℚ) (feature_names : List String) (feature_values : List ℚ) :
    List FeatureAttr × String :=
  match explainShapKernelTry shapForPrediction model feature_names feature_values with
  | .ok r => r
  | .error _ => explainSvmWithCoefficients model features_transformed feature_names feature_values

/-! Section: Totality of the explanation fallback chains (C6) -/

lemma append_ne_empty_of_left {s : String} (t : String) (h : s.length ≠ 0) :
    s ++ t ≠ "" := by
  intro he
  have hlen := congrArg String.length he
  rw [String.length_append] at hlen
  have h0 : String.length "" = 0 := rfl
  omega

lemma append_dot_ne_empty (s : String) : s ++ "." ≠ "" := by
  intro he
  have hlen := congrArg String.length he
  rw [String.length_append] at hlen
  have h1 : String.length "." = 1 := rfl
  have h0 : String.length "" = 0 := rfl
  omega

lemma formatFeatureImportanceExplanation_ne (tf : List FeatureAttr) :
    formatFeatureImportanceExplanation tf ≠ "" := by
  unfold formatFeatureImportanceExplanation
  split_ifs
  · decide
  · exact append_dot_ne_empty _

lemma formatCoefficientExplanation_ne (tf : List FeatureAttr) :
    formatCoefficientExplanation tf ≠ "" := by
  unfold formatCoefficientExplanation
  split_ifs
  · decide
  · exact append_dot_ne_empty _

lemma formatShapExplanation_ok_ne {tf : List FeatureAttr} {sv : List ℚ} {fn : List String}
    {s : String} (h : formatShapExplanation tf sv fn = .ok s) : s ≠ "" := by
  unfold formatShapExplanation at h
  split_ifs at h
  · injection h with h
    subst h
    decide
  · cases hm : tf.mapM (shapSentence sv fn) with
    | error e => rw [hm] at h; simp [Bind.bind, Except.bind] at h
    | ok parts =>
        rw [hm] at h
        simp only [Bind.bind, Except.bind, pure, Except.pure] at h
        injection h with h
        subst h
        exact append_dot_ne_empty _

lemma except_bind_ok {ε α β : Type} {x : Except ε α} {f : α → Except ε β} {b : β}
    (h : x.bind f = .ok b) : ∃ a, x = .ok a ∧ f a = .ok b := by
  cases x with
  | error e => simp [Except.bind] at h
  | ok a => exact ⟨a, rfl, h⟩

lemma except_pure_ok {ε β : Type} {b b' : β}
    (h : (pure b : Except ε β) = .ok b') : b = b' := by
  simpa [pure, Except.pure] using h

lemma explainFeatureImportanceTry_ok {m : MLModel} {fn : List String} {fv : List ℚ}
    {r : List FeatureAttr × String} (h : explainFeatureImportanceTry m fn fv = .ok r) :
    r.2 = formatFeatureImportanceExplanation r.1 := by
  unfold explainFeatureImportanceTry at h
  simp only [Bind.bind] at h
  obtain ⟨imps, h1, h⟩ := except_bind_ok h
  obtain ⟨tf, h2, h⟩ := except_bind_ok h
  have := except_pure_ok h
  subst this
  rfl

lemma explainWithFeatureImportance_reason_ne (m : MLModel) (fn : List String) (fv : List ℚ) :
    (explainWithFeatureImportance m fn fv).2 ≠ "" := by
  unfold explainWithFeatureImportance
  cases h : explainFeatureImportanceTry m fn fv with
  | error e => exact (by decide : ("Unable to generate explanation." : String) ≠ "")
  | ok r =>
      have := explainFeatureImportanceTry_ok h
      simpa [this] using formatFeatureImportanceExplanation_ne r.1

lemma explainShapTreeTry_ok {st : Except String (List ℚ)} {fn : List String} {fv : List ℚ}
    {r : List FeatureAttr × String} (h : explainShapTreeTry st fn fv = .ok r) :
    ∃ sv, formatShapExplanation r.1 sv fn = .ok r.2 := by
  unfold explainShapTreeTry at h
  simp only [Bind.bind] at h
  obtain ⟨sv, h1, h⟩ := except_bind_ok h
  obtain ⟨tf, h2, h⟩ := except_bind_ok h
  obtain ⟨expl, h3, h⟩ := except_bind_ok h
  have := except_pure_ok h
  subst this
  exact ⟨sv, h3⟩

lemma explainWithShapTree_reason_ne (st : Except String (List ℚ)) (m : MLModel)
    (fn : List String) (fv : List ℚ) :
    (explainWithShapTree st m fn fv).2 ≠ "" := by
  unfold explainWithShapTree
  cases h : explainShapTreeTry st fn fv with
  | error e => exact explainWithFeatureImportance_reason_ne m fn fv
  | ok r =>
      obtain ⟨sv, hfmt⟩ := explainShapTreeTry_ok h
      exact formatShapExplanation_ok_ne hfmt

lemma explainSvmCoefficientsTry_ok {m : MLModel} {ftr : List ℚ} {fn : List String}
    {fv : List ℚ} {r : List FeatureAttr × String}
    (h : explainSvmCoefficientsTry m ftr fn fv = .ok r) :
    r.2 = formatCoefficientExplanation r.1 ∨
      ∃ t, r.2 = "Prediction based on key growth metrics. " ++ t := by
  unfold explainSvmCoefficientsTry at h
  cases hc : m.coef with
  | some coefficients =>
      rw [hc] at h
      simp only [Bind.bind] at h
      obtain ⟨products, h1, h⟩ := except_bind_ok h
      obtain ⟨tf, h2, h⟩ := except_bind_ok h
      have := except_pure_ok h
      subst this
      exact Or.inl rfl
  | none =>
      rw [hc] at h
      simp only [Bind.bind] at h
      obtain ⟨tf, h2, h⟩ := except_bind_ok h
      have := except_pure_ok h
      subst this
      exact Or.inr ⟨_, rfl⟩

lemma explainSvmWithCoefficients_reason_ne (m : MLModel) (ftr : List ℚ)
    (fn : List String) (fv : List ℚ) :
    (explainSvmWithCoefficients m ftr fn fv).2 ≠ "" := by
  unfold explainSvmWithCoefficients
  cases h : explainSvmCoefficientsTry m ftr fn fv with
  | error e => exact (by decide : ("Unable to generate detailed explanation." : String) ≠ "")
  | ok r =>
      rcases explainSvmCoefficientsTry_ok h with hr | ⟨t, hr⟩
      · simpa [hr] using formatCoefficientExplanation_ne r.1
      · rw [hr]
        exact append_ne_empty_of_left t (by decide)

lemma explainShapKernelTry_ok {sk : Except String (List ℚ)} {m : MLModel}
    {fn : List String} {fv : List ℚ} {r : List FeatureAttr × String}
    (h : explainShapKernelTry sk m fn fv = .ok r) :
    ∃ sv, formatShapExplanation r.1 sv fn = .ok r.2 := by
  unfold explainShapKernelTry at h
  split_ifs at h
  simp only [Bind.bind] at h
  obtain ⟨idx, hp, h⟩ := except_bind_ok h
  obtain ⟨sv, h1, h⟩ := except_bind_ok h
  obtain ⟨tf, h2, h⟩ := except_bind_ok h
  obtain ⟨expl, h3, h⟩ := except_bind_ok h
  have := except_pure_ok h
  subst this
  exact ⟨sv, h3⟩

lemma explainWithShapKernel_reason_ne (sk : Except String (List ℚ)) (m : MLModel)
    (ftr : List ℚ) (fn : List String) (fv : List ℚ) :
    (explainWithShapKernel sk m ftr fn fv).2 ≠ "" := by
  unfold explainWithShapKernel
  cases h : explainShapKernelTry sk m fn fv with
  | error e => exact explainSvmWithCoefficients_reason_ne m ftr fn fv
  | ok r =>
      obtain ⟨sv, hfmt⟩ := explainShapKernelTry_ok h
      exact formatShapExplanation_ok_ne hfmt

/-- C6: for every model shape, transformed-feature list, feature-name list,
feature-value list and every outcome of the external SHAP computations
(including failure), each Explainer entry point returns a defined
attribution-list/reason pair — no exception escapes its fallback chain — and
the reason string is never empty. -/
theorem explainer_never_raises (m : MLModel) (shapT shapK : Except String (List ℚ))
    (features_transformed : List ℚ) (feature_names : List String)
    (feature_values : List ℚ) :
    (∃ tf reason, explainWithFeatureImportance m feature_names feature_values = (tf, reason))
      ∧ (explainWithFeatureImportance m feature_names feature_values).2 ≠ "" ∧
    (∃ tf reason, explainWithShapTree shapT m feature_names feature_values = (tf, reason))
      ∧ (explainWithShapTree shapT m feature_names feature_values).2 ≠ "" ∧
    (∃ tf reason, explainWithShapKernel shapK m features_transformed feature_names
        feature_values = (tf, reason))
      ∧ (explainWithShapKernel shapK m features_transformed feature_names
        feature_values).2 ≠ "" :=
  ⟨⟨_, _, rfl⟩, explainWithFeatureImportance_reason_ne m feature_names feature_values,
   ⟨_, _, rfl⟩, explainWithShapTree_reason_ne shapT m feature_names feature_values,
   ⟨_, _, rfl⟩, explainWithShapKernel_reason_ne shapK m features_transformed feature_names
     feature_values⟩

/-! Section: Overall top-feature summary (step 6 of `predict_stock`) -/

/-- The ordering of `all_features.sort(key=lambda x: x['impact'], reverse=True)`:
`a` precedes `b` when `b.impact ≤ a.impact`. -/
def impactGe (a b : FeatureAttr) : Prop := b.impact ≤ a.impact

instance : DecidableRel impactGe := fun a b => inferInstanceAs (Decidable (b.impact ≤ a.impact))

instance : IsTotal FeatureAttr impactGe := ⟨fun a b => le_total b.impact a.impact⟩

instance : IsTrans FeatureAttr impactGe := ⟨fun _ _ _ hab hbc => le_trans hbc hab⟩

/-- Python's stable in-place sort with `reverse=True`, by impact. -/
def sortByImpactDesc (l : List FeatureAttr) : List FeatureAttr :=
  List.insertionSort impactGe l

/-- Step 6 of `predict_stock`: concatenate the three models' top-feature lists,
sort by impact descending, truncate to the first five. -/
def overallTopFeatures (l1 l2 l3 : List FeatureAttr) : List FeatureAttr :=
  (sortByImpactDesc (l1 ++ l2 ++ l3)).take 5

/-- Concrete inputs on which the three explanation paths all succeed. -/
def cxNames : List String := ["pe_ratio", "pb_ratio", "roe", "debt_equity", "profit_margin"]

def cxVals : List ℚ := [15, 1, 18, 2, 12]

def cxModel1 : MLModel := { feature_importances := some [3, 1, 2, 5, 4] }

def cxModel3 : MLModel :=
  { coef := some [1, 2, 1, 1, 1], has_predict_proba := true, predictOutcome := .ok 0 }

def cxTop1 : List FeatureAttr := (explainWithFeatureImportance cxModel1 cxNames cxVals).1

def cxTop2 : List FeatureAttr :=
  (explainWithShapTree (.ok [1, -2, 3, 1, 0]) cxModel1 cxNames cxVals).1

def cxTop3 : List FeatureAttr :=
  (explainWithShapKernel (.ok [1, 2, 0, 1, 4]) cxModel3 cxVals cxNames cxVals).1

/-- C5 counterexample: each explanation path returns the top THREE features
(`np.argsort(...)[-3:]`), so the merged attribution list at the ensemble stage
has nine elements, not fifteen — the claim's "five from each" is false. -/
theorem overall_top_features_counterexample :
    cxTop1.length = 3 ∧ cxTop2.length = 3 ∧ cxTop3.length = 3 ∧
    (cxTop1 ++ cxTop2 ++ cxTop3).length = 9 ∧
    ¬ (cxTop1 ++ cxTop2 ++ cxTop3).length = 15 ∧
    overallTopFeatures cxTop1 cxTop2 cxTop3
      = (sortByImpactDesc (cxTop1 ++ cxTop2 ++ cxTop3)).take 5 :=
  ⟨by decide, by decide, by decide, by decide, by decide, rfl⟩

/-- C5 amended: the summary merges NINE attributions (three from each model's
top-feature list), sorts them stably by impact descending and truncates to the
first five; the five kept attributions all dominate the four dropped ones. -/
theorem overall_top_features_amended (l1 l2 l3 : List FeatureAttr)
    (h1 : l1.length = 3) (h2 : l2.length = 3) (h3 : l3.length = 3) :
    (l1 ++ l2 ++ l3).length = 9 ∧
    (overallTopFeatures l1 l2 l3).length = 5 ∧
    List.Sorted impactGe (overallTopFeatures l1 l2 l3) ∧
    List.Subperm (overallTopFeatures l1 l2 l3) (l1 ++ l2 ++ l3) ∧
    ∀ x ∈ overallTopFeatures l1 l2 l3,
      ∀ y ∈ (sortByImpactDesc (l1 ++ l2 ++ l3)).drop 5, impactGe x y := by
  have hlen : (l1 ++ l2 ++ l3).length = 9 := by simp [h1, h2, h3]
  have hsortlen : (sortByImpactDesc (l1 ++ l2 ++ l3)).length = 9 := by
    rw [sortByImpactDesc, (List.perm_insertionSort impactGe (l1 ++ l2 ++ l3)).length_eq, hlen]
  refine ⟨hlen, ?_, ?_, ?_, ?_⟩
  · rw [overallTopFeatures, List.length_take, hsortlen]
    decide
  · exact List.Pairwise.sublist (List.take_sublist 5 _)
      (List.sorted_insertionSort impactGe (l1 ++ l2 ++ l3))
  · exact ((List.take_sublist 5 _).subperm).trans
      (List.perm_insertionSort impactGe (l1 ++ l2 ++ l3)).subperm
  · intro x hx y hy
    have hsorted : List.Pairwise impactGe (sortByImpactDesc (l1 ++ l2 ++ l3)) :=
      List.sorted_insertionSort impactGe (l1 ++ l2 ++ l3)
    have hsplit := List.take_append_drop 5 (sortByImpactDesc (l1 ++ l2 ++ l3))
    rw [← hsplit] at hsorted
    simp only [overallTopFeatures] at hx
    exact (List.pairwise_append.mp hsorted).2.2 x hx y hy

def wl1 : List FeatureAttr := [⟨"a", 0, 9⟩, ⟨"b", 0, 7⟩, ⟨"c", 0, 5⟩]

def wl2 : List FeatureAttr := [⟨"d", 0, 8⟩, ⟨"e", 0, 6⟩, ⟨"f", 0, 4⟩]

def wl3 : List FeatureAttr := [⟨"g", 0, 10⟩, ⟨"h", 0, 3⟩, ⟨"i", 0, 2⟩]

/-- Witness for the amended C5 theorem at three concrete top-3 lists. -/
theorem overall_top_features_amended_witness :
    wl1.length = 3 ∧ wl2.length = 3 ∧ wl3.length = 3 ∧
    ((wl1 ++ wl2 ++ wl3).length = 9 ∧
     (overallTopFeatures wl1 wl2 wl3).length = 5 ∧
     List.Sorted impactGe (overallTopFeatures wl1 wl2 wl3) ∧
     List.Subperm (overallTopFeatures wl1 wl2 wl3) (wl1 ++ wl2 ++ wl3) ∧
     ∀ x ∈ overallTopFeatures wl1 wl2 wl3,
       ∀ y ∈ (sortByImpactDesc (wl1 ++ wl2 ++ wl3)).drop 5, impactGe x y) :=
  ⟨rfl, rfl, rfl, overall_top_features_amended wl1 wl2 wl3 rfl rfl rfl⟩

/-! Section: Feature assembler (`PredictionService._prepare_model_1_features`) -/

/-- Source: `getattr(stock, name, 0.0) or 0.0`: a missing (`None`) value — and a falsy
`0.0` — resolves to `0.0`. -/
def pyOrZero (v : Option ℚ) : ℚ :=
  match v with
  | none => 0
  | some q => if q = 0 then 0 else q

/-- Source: `getattr(stock, name, 0.0)` restricted to the Model-1 feature columns. -/
def stockAttr (s : Stock) (name : String) : Option ℚ :=
  if name = "pe_ratio" then s.pe_ratio
  else if name = "pb_ratio" then s.pb_ratio
  else if name = "roe" then s.roe
  else if name = "debt_equity" then s.debt_equity
  else if name = "profit_margin" then s.profit_margin
  else none

def model1FeatureNames : List String :=
  ["pe_ratio", "pb_ratio", "roe", "debt_equity", "profit_margin"]

/-- Source: `_prepare_model_1_features`: the single `np.array(...).reshape(1, -1)` row,
the parallel name list, and the name→value dict (association list built in
loop order). -/
def prepareModel1Features (s : Stock) : List ℚ × List String × List (String × ℚ) :=
  (model1FeatureNames.map fun n => pyOrZero (stockAttr s n),
   model1FeatureNames,
   model1FeatureNames.map fun n => (n, pyOrZero (stockAttr s n)))

/-- C7: the Model-1 vector is exactly
[pe_ratio, pb_ratio, roe, debt_equity, profit_margin] in that order (note the
order differs from the record's column order), missing/null fields resolve to
0.0, the name list is the fixed one, the name→value mapping is entrywise the
zip of names with the vector, and the spec's concrete example assembles to
[15, 1.2, 18, 0.4, 12]. -/
theorem model1_feature_assembly (s : Stock) :
    (prepareModel1Features s).1
      = [pyOrZero s.pe_ratio, pyOrZero s.pb_ratio, pyOrZero s.roe,
         pyOrZero s.debt_equity, pyOrZero s.profit_margin] ∧
    (prepareModel1Features s).2.1 = model1FeatureNames ∧
    (prepareModel1Features s).2.2
      = (prepareModel1Features s).2.1.zip (prepareModel1Features s).1 ∧
    pyOrZero none = 0 ∧
    (prepareModel1Features
        { pe_ratio := some 15, pb_ratio := some (12/10), roe := some 18,
          profit_margin := some 12, debt_equity := some (4/10) }).1
      = [15, 12/10, 18, 4/10, 12] := by
  refine ⟨?_, rfl, rfl, rfl, ?_⟩
  · simp [prepareModel1Features, model1FeatureNames, stockAttr]
  · simp [prepareModel1Features, model1FeatureNames, stockAttr, pyOrZero]

/-! Section: Prediction orchestrator (`PredictionService.predict_stock`) -/

/-- One `_run_model_prediction` result dict. -/
structure ModelResult where
  prediction : String
  confidence : ℚ
  reason : String
  top_features : List FeatureAttr
deriving DecidableEq

/-- Source: `ExplanationService.generate_ensemble_reasoning` (note: its descriptor
tables match on UPPER-CASE labels). -/
def generateEnsembleReasoning (val_pred health_pred growth_pred final_rec : String)
    (top_features : List FeatureAttr) : String :=
  let val_desc :=
    if val_pred = "UNDERVALUED" then "undervalued"
    else if val_pred = "FAIR" then "fairly valued"
    else if val_pred = "OVERVALUED" then "overvalued"
    else "valued"
  let health_desc :=
    if health_pred = "EXCELLENT" then "excellent financial health"
    else if health_pred = "FAIR" then "fair financial health"
    else if health_pred = "POOR" then "concerning financial health"
    else "financial health"
  let growth_desc :=
    if growth_pred = "STRONG_GROWTH" then "strong growth trajectory"
    else if growth_pred = "MODERATE_GROWTH" then "moderate growth potential"
    else if growth_pred = "WEAK_GROWTH" then "weak growth signals"
    else if growth_pred = "DECLINING" then "declining performance"
    else "growth"
  let reasoning :=
    if final_rec = "BUY" then
      "All three models indicate positive signals. The stock is " ++ val_desc ++ " with "
        ++ health_desc ++ " and " ++ growth_desc ++ "."
    else if final_rec = "SELL" then
      "Multiple models show concerning signals. The stock is " ++ val_desc ++ " with "
        ++ health_desc ++ " and " ++ growth_desc ++ "."
    else
      "Mixed signals from the models. The stock is " ++ val_desc ++ " with " ++ health_desc
        ++ " and " ++ growth_desc ++ ". Further analysis recommended."
  match top_features with
  | [] => reasoning
  | top_feature :: _ =>
      reasoning ++ " " ++ readableName top_feature.name
        ++ " is the most significant factor influencing this recommendation."

/-- The `prediction_data` dict assembled in step 8 of `predict_stock`. -/
structure PredictionData where
  user_id : ℕ
  stock_id : ℕ
  ticker : String
  company_name : String
  sector : Option String
  model_1_prediction : String
  model_1_confidence : ℚ
  model_1_reason : String
  model_1_top_features : List FeatureAttr
  model_2_prediction : String
  model_2_confidence : ℚ
  model_2_reason : String
  model_2_top_features : List FeatureAttr
  model_3_prediction : String
  model_3_confidence : ℚ
  model_3_reason : String
  model_3_top_features : List FeatureAttr
  final_recommendation : String
  final_confidence : ℚ
  final_reasoning : String
  overall_top_features : List FeatureAttr
deriving DecidableEq

/-- The row returned by `create_prediction` after commit+refresh: the saved
data plus the database-assigned id and timestamp (as its ISO string). -/
structure SavedPrediction where
  id : ℕ
  created_at_iso : String
deriving DecidableEq

/-- The step-9 response payload. -/
structure PredictResponse where
  stock_ticker : String
  stock_company_name : String
  stock_sector : String
  model_1 : ModelResult
  model_2 : ModelResult
  model_3 : ModelResult
  final_recommendation : String
  final_confidence : ℚ
  final_reasoning : String
  overall_top_features : List FeatureAttr
  prediction_id : ℕ
  predicted_at : String
deriving DecidableEq

/-- A service-layer outcome dict: `{"status_code": 200, "data": ...}` or
`{"status_code": c, "error": e}`. -/
inductive ServiceResult (α : Type) where
  | ok (data : α)
  | err (status_code : ℕ) (error : String)
deriving DecidableEq

/-- Source: `PredictionService.predict_stock`.  External collaborators are parameters:
`stockLookup`/`ratiosLookup` model the two repository reads,
`runModel i` the `_run_model_prediction` call for model `i+1` (assembled
features applied to external model artifacts; may raise), and `save` the
`create_prediction` repository write (add/commit/refresh; may raise).  The
enclosing `try/except` is the outer `match`, mapping any raised error to the
generic 500 response. -/
def predictStock (stockLookup : Option Stock) (ratiosLookup : Option StockRatios)
    (runModel : Fin 3 → Except String ModelResult)
    (save : PredictionData → Except String SavedPrediction)
    (ticker : String) (user_id : ℕ) : ServiceResult PredictResponse :=
  match (do
    match stockLookup with
    | none =>
        pure (ServiceResult.err 404 ("Stock with ticker " ++ ticker ++ " not found"))
    | some stock =>
        match ratiosLookup with
        | none =>
            pure (ServiceResult.err 400
              "Stock ratios not calculated. Please ensure all financial data is available.")
        | some _ratios => do
            let model_1_result ← runModel 0
            let model_2_result ← runModel 1
            let model_3_result ← runModel 2
            let ensemble_result := ensembleVoting
              model_1_result.prediction model_2_result.prediction model_3_result.prediction
              model_1_result.confidence model_2_result.confidence model_3_result.confidence
            let all_features := model_1_result.top_features ++ model_2_result.top_features
              ++ model_3_result.top_features
            let overall_top_features := (sortByImpactDesc all_features).take 5
            let ensemble_reasoning := generateEnsembleReasoning
              model_1_result.prediction model_2_result.prediction model_3_result.prediction
              ensemble_result.recommendation overall_top_features
            let prediction_data : PredictionData :=
              { user_id := user_id, stock_id := stock.id, ticker := stock.ticker,
                company_name := stock.company_name, sector := stock.sector,
                model_1_prediction := model_1_result.prediction,
                model_1_confidence := model_1_result.confidence,
                model_1_reason := model_1_result.reason,
                model_1_top_features := model_1_result.top_features,
                model_2_prediction := model_2_result.prediction,
                model_2_confidence := model_2_result.confidence,
                model_2_reason := model_2_result.reason,
                model_2_top_features := model_2_result.top_features,
                model_3_prediction := model_3_result.prediction,
                model_3_confidence := model_3_result.confidence,
                model_3_reason := model_3_result.reason,
                model_3_top_features := model_3_result.top_features,
                final_recommendation := ensemble_result.recommendation,
                final_confidence := ensemble_result.confidence,
                final_reasoning := ensemble_reasoning,
                overall_top_features := overall_top_features }
            let saved_prediction ← save prediction_data
            pure (ServiceResult.ok
              { stock_ticker := stock.ticker,
                stock_company_name := stock.company_name,
                stock_sector := (match stock.sector with
                  | some sec => sec
                  | none => "Unknown"),
                model_1 := model_1_result, model_2 := model_2_result,
                model_3 := model_3_result,
                final_recommendation := ensemble_result.recommendation,
                final_confidence := ensemble_result.confidence,
                final_reasoning := ensemble_reasoning,
                overall_top_features := overall_top_features,
                prediction_id := saved_prediction.id,
                predicted_at := saved_prediction.created_at_iso })
    : Except String (ServiceResult PredictResponse)) with
  | .ok r => r
  | .error e => ServiceResult.err 500 ("Prediction error: " ++ e)

def cx8Stock : Stock :=
  { id := 7, ticker := "ABC", company_name := "ABC Corp", sector := some "Tech" }

def cx8Result1 : ModelResult :=
  { prediction := "undervalued", confidence := 8/10, reason := "r1", top_features := [] }

def cx8Result2 : ModelResult :=
  { prediction := "excellent", confidence := 9/10, reason := "r2", top_features := [] }

def cx8Result3 : ModelResult :=
  { prediction := "strong_growth", confidence := 7/10, reason := "r3", top_features := [] }

def cx8RunModel : Fin 3 → Except String ModelResult
  | 0 => .ok cx8Result1
  | 1 => .ok cx8Result2
  | 2 => .ok cx8Result3

/-- C8 counterexample: with the stock and ratios present and all three model
runs succeeding, a failing persistence step makes `predict_stock` return the
generic 500 error — the shaped prediction response is NOT returned and the
inference results are lost, contradicting the claim. -/
theorem predict_persistence_failure_counterexample :
    predictStock (some cx8Stock) (some {}) cx8RunModel
      (fun _ => .error "DB down") "ABC" 42
      = ServiceResult.err 500 ("Prediction error: " ++ "DB down") := rfl

/-- C8 amended: when the three model inferences succeed but the persistence
step raises, `predict_stock` does not return the shaped response; the blanket
handler maps the failure to the generic 500 `Prediction error: ...` result, so
the inference results are lost and the persistence failure is reported only
through that generic message. -/
theorem predict_persistence_failure_amended (stock : Stock) (ratios : StockRatios)
    (runModel : Fin 3 → Except String ModelResult) (r1 r2 r3 : ModelResult)
    (save : PredictionData → Except String SavedPrediction) (e : String)
    (ticker : String) (uid : ℕ)
    (h0 : runModel 0 = .ok r1) (h1 : runModel 1 = .ok r2) (h2 : runModel 2 = .ok r3)
    (hsave : ∀ d, save d = .error e) :
    predictStock (some stock) (some ratios) runModel save ticker uid
      = ServiceResult.err 500 ("Prediction error: " ++ e) := by
  unfold predictStock
  simp only [Bind.bind, h0, h1, h2, Except.bind, hsave]

/-- Witness for the amended C8 theorem at the concrete counterexample input. -/
theorem predict_persistence_failure_amended_witness :
    cx8RunModel 0 = .ok cx8Result1 ∧ cx8RunModel 1 = .ok cx8Result2 ∧
    cx8RunModel 2 = .ok cx8Result3 ∧
    (∀ d, (fun _ : PredictionData => (.error "DB down" : Except String SavedPrediction)) d
      = .error "DB down") ∧
    predictStock (some cx8Stock) (some {}) cx8RunModel
      (fun _ => .error "DB down") "ABC" 42
      = ServiceResult.err 500 ("Prediction error: " ++ "DB down") :=
  ⟨rfl, rfl, rfl, fun _ => rfl,
   predict_persistence_failure_amended cx8Stock {} cx8RunModel cx8Result1 cx8Result2
     cx8Result3 (fun _ => .error "DB down") "DB down" "ABC" 42 rfl rfl rfl fun _ => rfl⟩

/-! Section: Prediction history detail (`PredictionService.get_prediction_by_id`) -/

/-- A stored prediction row (`models/prediction.py`);
`created_at` is carried as its ISO string when set. -/
structure PredictionRow where
  id : ℕ
  user_id : ℕ
  ticker : String := ""
  company_name : String := ""
  sector : Option String := none
  model_1_prediction : String := ""
  model_1_confidence : ℚ := 0
  model_1_reason : String := ""
  model_1_top_features : List FeatureAttr := []
  model_2_prediction : String := ""
  model_2_confidence : ℚ := 0
  model_2_reason : String := ""
  model_2_top_features : List FeatureAttr := []
  model_3_prediction : String := ""
  model_3_confidence : ℚ := 0
  model_3_reason : String := ""
  model_3_top_features : List FeatureAttr := []
  final_recommendation : String := ""
  final_confidence : ℚ := 0
  final_reasoning : String := ""
  overall_top_features : List FeatureAttr := []
  created_at : Option String := none
deriving DecidableEq

/-- The `prediction_data` detail dict built on the success path. -/
structure PredictionDetail where
  id : ℕ
  ticker : String
  company_name : String
  sector : Option String
  model_1_prediction : String
  model_1_confidence : ℚ
  model_1_reason : String
  model_1_top_features : List FeatureAttr
  model_2_prediction : String
  model_2_confidence : ℚ
  model_2_reason : String
  model_2_top_features : List FeatureAttr
  model_3_prediction : String
  model_3_confidence : ℚ
  model_3_reason : String
  model_3_top_features : List FeatureAttr
  final_recommendation : String
  final_confidence : ℚ
  final_reasoning : String
  overall_top_features : List FeatureAttr
  predicted_at : Option String
deriving DecidableEq

def predictionDetailOf (p : PredictionRow) : PredictionDetail :=
  { id := p.id, ticker := p.ticker, company_name := p.company_name, sector := p.sector,
    model_1_prediction := p.model_1_prediction, model_1_confidence := p.model_1_confidence,
    model_1_reason := p.model_1_reason, model_1_top_features := p.model_1_top_features,
    model_2_prediction := p.model_2_prediction, model_2_confidence := p.model_2_confidence,
    model_2_reason := p.model_2_reason, model_2_top_features := p.model_2_top_features,
    model_3_prediction := p.model_3_prediction, model_3_confidence := p.model_3_confidence,
    model_3_reason := p.model_3_reason, model_3_top_features := p.model_3_top_features,
    final_recommendation := p.final_recommendation,
    final_confidence := p.final_confidence, final_reasoning := p.final_reasoning,
    overall_top_features := p.overall_top_features, predicted_at := p.created_at }

/-- Source: `PredictionRepository.get_prediction_by_id`: select the row whose primary
key matches, `None` otherwise. -/
def getPredictionRow (store : List PredictionRow) (prediction_id : ℕ) : Option PredictionRow :=
  store.find? fun p => p.id == prediction_id

/-- Source: `PredictionService.get_prediction_by_id`: 404 when absent, 403 on an
ownership mismatch, else the detail dict (reads are pure here, so the
surrounding `try/except` has nothing to catch). -/
def getPredictionById (store : List PredictionRow) (prediction_id user_id : ℕ) :
    ServiceResult PredictionDetail :=
  match getPredictionRow store prediction_id with
  | none => ServiceResult.err 404 "Prediction not found"
  | some prediction =>
      if prediction.user_id ≠ user_id then ServiceResult.err 403 "Access denied"
      else ServiceResult.ok (predictionDetailOf prediction)

/-- C9: requesting the detail of a record owned by another user yields the
constant 403 "Access denied" result, which carries none of the record's
content: any other store whose matching record also fails the ownership check
produces the identical response. -/
theorem history_detail_ownership (store : List PredictionRow) (pid uidB : ℕ)
    (p : PredictionRow) (hp : getPredictionRow store pid = some p)
    (hne : p.user_id ≠ uidB) :
    getPredictionById store pid uidB = ServiceResult.err 403 "Access denied" ∧
    ∀ store' q, getPredictionRow store' pid = some q → q.user_id ≠ uidB →
      getPredictionById store pid uidB = getPredictionById store' pid uidB := by
  constructor
  · unfold getPredictionById
    rw [hp]
    simp [hne]
  · intro store' q hq hqne
    unfold getPredictionById
    rw [hp, hq]
    simp [hne, hqne]

def cx9Row : PredictionRow :=
  { id := 1, user_id := 100, ticker := "ABC", final_recommendation := "BUY",
    final_confidence := 1, final_reasoning := "secret" }

/-- Witness for C9: a store holding a record of user 100, requested by
user 200. -/
theorem history_detail_ownership_witness :
    getPredictionRow [cx9Row] 1 = some cx9Row ∧ cx9Row.user_id ≠ 200 ∧
    (getPredictionById [cx9Row] 1 200 = ServiceResult.err 403 "Access denied" ∧
     ∀ store' q, getPredictionRow store' 1 = some q → q.user_id ≠ 200 →
       getPredictionById [cx9Row] 1 200 = getPredictionById store' 1 200) :=
  ⟨rfl, by decide, history_detail_ownership [cx9Row] 1 200 cx9Row rfl (by decide)⟩

/-- C10: a prediction id absent from the store yields the 404 result for every
requesting user (the ownership check runs only after a record is found), while
an existing record owned by someone else yields a result different from the
404 one — so a non-owner can distinguish an existing id from a missing one. -/
theorem history_detail_not_found (store : List PredictionRow) (pid : ℕ)
    (hnone : getPredictionRow store pid = none) :
    (∀ uid, getPredictionById store pid uid = ServiceResult.err 404 "Prediction not found") ∧
    ∀ store' pid' uid (p : PredictionRow), getPredictionRow store' pid' = some p →
      p.user_id ≠ uid →
      getPredictionById store' pid' uid ≠ ServiceResult.err 404 "Prediction not found" := by
  constructor
  · intro uid
    unfold getPredictionById
    rw [hnone]
  · intro store' pid' uid p hp hne
    unfold getPredictionById
    rw [hp]
    simp [hne]

/-- Witness for C10: the empty store has no record with id 5; the C9 witness
store shows the contrasting 403 outcome. -/
theorem history_detail_not_found_witness :
    getPredictionRow [] 5 = none ∧
    ((∀ uid, getPredictionById [] 5 uid = ServiceResult.err 404 "Prediction not found") ∧
     ∀ store' pid' uid (p : PredictionRow), getPredictionRow store' pid' = some p →
       p.user_id ≠ uid →
       getPredictionById store' pid' uid ≠ ServiceResult.err 404 "Prediction not found") :=
  ⟨rfl, history_detail_not_found [] 5 rfl⟩

end XStock
